import Mathlib

/-!
Shallow embedding of the portfolio script.  The repository ships three
near-duplicate copies of the same script: `src/script.js` (soft-click sound
variant) and two copies inside `src/unnamed/part_000` (keyboard-click
variant at lines 1-838, simple-tone variant at lines 839-1611).  Times,
frequencies and gains are rationals; every sound-generating function is
embedded as the list of audio source nodes it schedules, with each node's
start time, the time it ceases to sound, its node chain down to
`audioContext.destination`, and the gain-ramp targets scheduled on its gain
node.
-/

namespace Portfolio

/-- The kinds of Web Audio nodes the script creates. -/
inductive AudioNode
  | oscillator
  | biquadFilter
  | gainNode
  | waveShaper
  | bufferSource
  | destination
  deriving DecidableEq, Repr

/-- Oscillator wave types used by `createTone` (`part_000` lines 863-869). -/
inductive WaveType
  | sine
  | triangle
  | square
  | sawtooth
  deriving DecidableEq, Repr

/-- One scheduled audio source node.  `endTime` is the scheduled `stop`
time; for the noise buffer source of `createSoftClickSound`, which is
started but never stopped (`script.js` line 162), it is the start time plus
the buffer length `sampleRate * duration / sampleRate = duration`, the
moment the buffer runs out.  `gainTargets` lists the values scheduled on
the attached gain node (`setValueAtTime` / ramp targets, in order). -/
structure SourceSched where
  startTime : ℚ
  endTime : ℚ
  path : List AudioNode
  gainTargets : List ℚ
  deriving DecidableEq, Repr

/-- One entry of `soundConfig` in `createSoftClickSound`
(`script.js` lines 43-50). -/
structure SoftConfig where
  freq : ℚ
  duration : ℚ
  volume : ℚ
  deriving DecidableEq, Repr

/-- `soundConfig[type] || soundConfig['standard']` (`script.js` lines 43-52):
the per-type table with fallback to `'standard'`. -/
def softConfig : String → SoftConfig
  | "standard" => ⟨280, 0.12, 0.12⟩
  | "subtle" => ⟨240, 0.10, 0.06⟩
  | "navigation" => ⟨320, 0.11, 0.10⟩
  | "button" => ⟨360, 0.13, 0.14⟩
  | "success" => ⟨420, 0.15, 0.16⟩
  | "notification" => ⟨380, 0.12, 0.13⟩
  | _ => ⟨280, 0.12, 0.12⟩

/-- A sound stored in a `sounds` table: the parameters the corresponding
`create*` call closes over.  `softClick` is `createSoftClickSound(type)`
(`script.js` line 36), `keyboardSound`/`keyboardChord` are from the
keyboard copy (`part_000` lines 36 and 111), `tone`/`chord` from the
simple-tone copy (`part_000` lines 873 and 896).  `heavyMetal` is modelled
from the spec (see `createHeavyMetalSound`). -/
inductive SoundSpec
  | softClick (type : String)
  | keyboardSound (freqs : List ℚ) (duration : ℚ)
  | keyboardChord (freqs : List ℚ) (duration : ℚ)
  | tone (freq : ℚ) (duration : ℚ) (wave : WaveType)
  | chord (freqs : List ℚ) (duration : ℚ)
  | heavyMetal (freq : ℚ) (duration : ℚ)
  deriving DecidableEq, Repr

/-- The configured duration of a sound: the `duration` each generator
closes over (for `softClick`, `config.duration` after the table lookup). -/
def SoundSpec.duration : SoundSpec → ℚ
  | .softClick ty => (softConfig ty).duration
  | .keyboardSound _ d => d
  | .keyboardChord _ d => d
  | .tone _ d _ => d
  | .chord _ d => d
  | .heavyMetal _ d => d

/-- The sources a sound schedules when its thunk fires at `currentTime = t`
with instance volume `vol` (guards `!audioContext || !isEnabled` are applied
by `SoundSystem.play` below, mirroring the early return in each thunk).

`softClick` (`script.js` lines 40-163): main oscillator through two
low-pass filters, a sub-harmonic oscillator started at `t + 0.003`, a
harmonic oscillator started at `t + 0.008` (all stopped at `t + duration`),
and for every type except `'subtle'` a noise buffer source of buffer length
`duration` started at `t + 0.002` and never stopped.

`keyboardSound` (`part_000` lines 36-74): one oscillator per entry of
`frequencies`, the `index`-th starting at `t + index * 0.005` and stopping
`duration` later, plus `addKeyboardNoise` (lines 76-109): a noise source
started at `t` and stopped at `t + duration`.

`keyboardChord` (`part_000` lines 111-147): the `index`-th note is created
inside `setTimeout(..., index * 30)` and reads `audioContext.currentTime`
when the timer fires; this real-time indirection is idealised as the timer
firing exactly `0.03 * index` seconds after `t`.  Plus `addKeyboardNoise`.

`tone` (`part_000` lines 873-894): a single oscillator into a gain node.

`chord` (`part_000` lines 896-920): like `keyboardChord` with a
`setTimeout(..., index * 50)` stagger and no noise.

`heavyMetal`: see `createHeavyMetalSound`. -/
def runSpec (spec : SoundSpec) (vol : ℚ) (t : ℚ) : List SourceSched :=
  match spec with
  | .softClick ty =>
      [ ⟨t, t + (softConfig ty).duration,
          [.oscillator, .biquadFilter, .biquadFilter, .gainNode, .destination],
          [0, vol * (softConfig ty).volume * 0.3, vol * (softConfig ty).volume,
           vol * (softConfig ty).volume * 0.6, 0.001]⟩,
        ⟨t + 0.003, t + (softConfig ty).duration,
          [.oscillator, .biquadFilter, .gainNode, .destination],
          [0, vol * (softConfig ty).volume * 0.2, 0.001]⟩,
        ⟨t + 0.008, t + (softConfig ty).duration,
          [.oscillator, .biquadFilter, .gainNode, .destination],
          [0, vol * (softConfig ty).volume *
             (if ty == "success" || ty == "button" then 0.25 else 0.15), 0.001]⟩ ]
      ++ (if ty == "subtle" then []
          else [⟨t + 0.002, t + 0.002 + (softConfig ty).duration,
                 [.bufferSource, .biquadFilter, .gainNode, .destination],
                 [0, vol * 0.02, 0.001]⟩])
  | .keyboardSound freqs d =>
      (freqs.enum.map fun p =>
        ⟨t + (p.1 : ℚ) * 0.005, t + (p.1 : ℚ) * 0.005 + d,
         [.oscillator, .biquadFilter, .gainNode, .destination],
         [0, vol * (1 - (p.1 : ℚ) * 0.3), 0.001]⟩)
      ++ [⟨t, t + d,
           [.bufferSource, .biquadFilter, .gainNode, .destination],
           [0, vol * 0.1, 0.001]⟩]
  | .keyboardChord freqs d =>
      (freqs.enum.map fun p =>
        ⟨t + (p.1 : ℚ) * 0.03, t + (p.1 : ℚ) * 0.03 + d,
         [.oscillator, .biquadFilter, .gainNode, .destination],
         [0, vol * 0.2, 0.001]⟩)
      ++ [⟨t, t + d,
           [.bufferSource, .biquadFilter, .gainNode, .destination],
           [0, vol * 0.1, 0.001]⟩]
  | .tone _ d _ =>
      [⟨t, t + d, [.oscillator, .gainNode, .destination], [0, vol, 0.001]⟩]
  | .chord freqs d =>
      freqs.enum.map fun p =>
        ⟨t + (p.1 : ℚ) * 0.05, t + (p.1 : ℚ) * 0.05 + d,
         [.oscillator, .gainNode, .destination], [0, vol * 0.3, 0.001]⟩
  | .heavyMetal _ d =>
      [⟨t, t + d,
        [.oscillator, .waveShaper, .gainNode, .destination], [0, vol, 0.001]⟩]

namespace SoftClickCopy

/-- `createSounds` of the soft-click copy (`script.js` lines 23-34):
every entry is a `createSoftClickSound` with the written type. -/
def createSounds : String → Option SoundSpec
  | "click" => some (.softClick "standard")
  | "hover" => some (.softClick "subtle")
  | "navigation" => some (.softClick "navigation")
  | "button" => some (.softClick "button")
  | "keypress" => some (.softClick "standard")
  | "success" => some (.softClick "success")
  | "notification" => some (.softClick "notification")
  | _ => none

end SoftClickCopy

namespace KeyboardCopy

/-- `createSounds` of the keyboard copy (`part_000` lines 23-34). -/
def createSounds : String → Option SoundSpec
  | "click" => some (.keyboardSound [800, 1200] 0.08)
  | "hover" => some (.keyboardSound [600, 900] 0.04)
  | "navigation" => some (.keyboardSound [1000, 1400] 0.1)
  | "button" => some (.keyboardSound [900, 1300] 0.09)
  | "keypress" => some (.keyboardSound [700, 1100, 1500] 0.06)
  | "success" => some (.keyboardChord [523, 659, 784] 0.15)
  | "notification" => some (.keyboardSound [1200, 1600] 0.08)
  | _ => none

end KeyboardCopy

namespace ToneCopy

/-- `createSounds` of the simple-tone copy (`part_000` lines 860-871). -/
def createSounds : String → Option SoundSpec
  | "click" => some (.tone 800 0.1 .sine)
  | "hover" => some (.tone 600 0.05 .sine)
  | "navigation" => some (.tone 1000 0.15 .triangle)
  | "button" => some (.tone 900 0.12 .square)
  | "keypress" => some (.tone 700 0.08 .sawtooth)
  | "success" => some (.chord [523, 659, 784] 0.2)
  | "notification" => some (.tone 1200 0.1 .sine)
  | _ => none

end ToneCopy

/-- Modelled from the spec: the spec describes four near-duplicate copies of
the script, among whose synthesis strategies is a "heavy metal" distorted
click involving waveshaping distortion; that fourth copy is not under
`src/`.  Faithful to the spec's words, its generator routes the oscillator
through a waveshaping (distortion) node before the gain stage and the
output; the concrete frequency and duration parameters are illustrative, as
the spec names none. -/
def createHeavyMetalSound (freq duration : ℚ) : SoundSpec :=
  .heavyMetal freq duration

/-- Modelled from the spec: the sounds table of the missing "heavy metal"
copy, mapping the click sound to the distorted-click generator. -/
def heavyMetalSounds : String → Option SoundSpec
  | "click" => some (createHeavyMetalSound 150 0.3)
  | _ => none

/-- The mutable fields of a `SoundSystem` instance (`script.js` lines 4-11):
`audioContext` is abstracted to whether the context was created, `sounds`
is the table `createSounds` filled (empty when `init` failed). -/
structure SoundSystemState where
  hasAudioContext : Bool
  sounds : String → Option SoundSpec
  isEnabled : Bool
  volume : ℚ

/-- The state after `constructor` + `init` (`script.js` lines 5-21): when
the `AudioContext` constructor succeeds (`audioOk`) the context exists and
`createSounds` fills the table; when it throws, the catch leaves
`audioContext` null and `sounds` empty.  `v0` is the copy's initial volume
(0.4 soft-click, 0.2 keyboard, 0.3 simple-tone). -/
def mkSoundSystem (audioOk : Bool) (table : String → Option SoundSpec) (v0 : ℚ) :
    SoundSystemState :=
  if audioOk then ⟨true, table, true, v0⟩ else ⟨false, fun _ => none, true, v0⟩

namespace SoundSystem

/-- `play(soundName)` (`script.js` lines 169-173): looks the name up in
`sounds` and invokes the stored thunk; each thunk returns immediately when
`!this.audioContext || !this.isEnabled` (`script.js` line 38), otherwise it
schedules its sources at `currentTime = t`.  No field of the instance is
written, so the state component of the result is the input state. -/
def play (st : SoundSystemState) (name : String) (t : ℚ) :
    SoundSystemState × List SourceSched :=
  match st.sounds name with
  | none => (st, [])
  | some spec =>
      if st.hasAudioContext && st.isEnabled then (st, runSpec spec st.volume t)
      else (st, [])

/-- `toggle()` (`script.js` lines 175-178). -/
def toggle (st : SoundSystemState) : SoundSystemState × Bool :=
  ({ st with isEnabled := !st.isEnabled }, !st.isEnabled)

/-- `setVolume(volume)` (`script.js` lines 180-182):
`Math.max(0, Math.min(1, volume))`. -/
def setVolume (st : SoundSystemState) (v : ℚ) : SoundSystemState :=
  { st with volume := max 0 (min 1 v) }

end SoundSystem

/-- The SoundSystem calls an event handler can make on an instance. -/
inductive SoundOp
  | toggle
  | setVolume (v : ℚ)
  | play (name : String) (t : ℚ)

/-- The state after one call. -/
def applySoundOp (st : SoundSystemState) : SoundOp → SoundSystemState
  | .toggle => (SoundSystem.toggle st).1
  | .setVolume v => SoundSystem.setVolume st v
  | .play name t => (SoundSystem.play st name t).1

/-- The state after a call sequence. -/
def runSoundOps (st : SoundSystemState) (ops : List SoundOp) : SoundSystemState :=
  ops.foldl applySoundOp st

/-! ## Section navigation (`script.js` lines 487-566, 716-737) -/

/-- A `.content-section` element: its `id`, whether its class list carries
`'hidden'`, and its inline `style.display` value. -/
structure ContentSection where
  id : String
  hiddenClass : Bool
  display : String
  deriving DecidableEq, Repr

/-- The parts of the document the navigation functions touch: the
`.hero-desk` element's `style.display` (`none` when the element is absent)
and the `.content-section` elements in document order. -/
structure PageState where
  hero : Option String
  sections : List ContentSection
  deriving DecidableEq, Repr

/-- `contentSections.forEach(section => section.classList.add('hidden'))`
(`script.js` lines 518-521). -/
def hideAllSections (ss : List ContentSection) : List ContentSection :=
  ss.map fun s => { s with hiddenClass := true }

/-- `document.getElementById(sectionId)` followed by
`classList.remove('hidden'); style.display = 'block'` (`script.js` lines
524-527): the first element with the id, if any, is revealed. -/
def revealFirst (sid : String) : List ContentSection → List ContentSection
  | [] => []
  | s :: rest =>
      if s.id = sid then { s with hiddenClass := false, display := "block" } :: rest
      else s :: revealFirst sid rest

/-- `showSection(sectionId)` (`script.js` lines 510-542): hide the hero
(if present), add `'hidden'` to every content section, then reveal the
target if an element with that id exists.  The entrance-animation timers
only touch opacity/transform and are not modelled. -/
def showSection (sid : String) (st : PageState) : PageState :=
  { hero := st.hero.map fun _ => "none",
    sections := revealFirst sid (hideAllSections st.sections) }

/-- `showHeroSection()` (`script.js` lines 545-561): hide every content
section (class and display) and show the hero with display `'flex'`. -/
def showHeroSection (st : PageState) : PageState :=
  { hero := st.hero.map fun _ => "flex",
    sections := st.sections.map fun s => { s with hiddenClass := true, display := "none" } }

/-- `openSection(sectionId)` (`script.js` lines 564-566). -/
def openSection (sid : String) (st : PageState) : PageState :=
  showSection sid st

/-- The navigation operations wired to events: a `.nav-link` click
(`script.js` lines 491-506, href target `'home'` goes to the hero), the
desk-object and info-card clicks that navigate (lines 395-485), a number
key via `keyMap` and the Escape key (lines 716-737), and `openSection`. -/
inductive NavOp
  | navLinkClick (targetId : String)
  | deskLaptop
  | deskBooks
  | deskPhone
  | deskExperienceCard
  | numberKey (key : String)
  | escapeKey
  | openSectionCall (sid : String)

/-- The page state after one navigation operation. -/
def applyNav (op : NavOp) (st : PageState) : PageState :=
  match op with
  | .navLinkClick tid => if tid = "home" then showHeroSection st else showSection tid st
  | .deskLaptop => showSection "about" st
  | .deskBooks => showSection "projects" st
  | .deskPhone => showSection "contact" st
  | .deskExperienceCard => showSection "experience" st
  | .numberKey k =>
      match k with
      | "1" => showHeroSection st
      | "2" => showSection "about" st
      | "3" => showSection "experience" st
      | "4" => showSection "contact" st
      | _ => st
  | .escapeKey => showHeroSection st
  | .openSectionCall sid => showSection sid st

/-- Whether the hero is displayed: present with a display other than
`'none'`. -/
def heroVisible (st : PageState) : Bool :=
  match st.hero with
  | some d => d != "none"
  | none => false

/-- How many views are visible: the hero plus the content sections not
carrying the `'hidden'` class. -/
def countVisible (st : PageState) : ℕ :=
  (if heroVisible st then 1 else 0)
    + (st.sections.filter fun s => !s.hiddenClass).length

/-! ## Notification toasts (`script.js` lines 578-624 and 924-997) -/

/-- A direct child of `document.body` as far as the notification functions
are concerned: a `.notification` toast (class `notification
notification-<type>`), a `.notification-popup` toast, an
`.email-notification`, or anything else. -/
inductive BodyElem
  | notification (message : String) (type : String)
  | notificationPopup (message : String)
  | emailNotification (message : String) (type : String)
  | other (tag : String)
  deriving DecidableEq, Repr

/-- Whether an element matches `document.querySelector('.notification')`. -/
def isNotificationElem : BodyElem → Bool
  | .notification _ _ => true
  | _ => false

/-- Whether an element matches
`document.querySelector('.notification-popup')`. -/
def isNotificationPopup : BodyElem → Bool
  | .notificationPopup _ => true
  | _ => false

/-- `querySelector(sel)?.remove()`: drop the first match, keep the rest. -/
def removeFirst (p : BodyElem → Bool) : List BodyElem → List BodyElem
  | [] => []
  | x :: xs => if p x then xs else x :: removeFirst p xs

/-- `showNotification(message, type = 'info')` (`script.js` lines 924-997,
the declaration that wins in `script.js`): remove the first existing
`.notification` element, then append the new toast to `document.body`.
The slide-in style element appended to `document.head` and the 5-second
auto-remove timer are modelled separately (`notificationTimeout`). -/
def showNotification (body : List BodyElem) (message : String)
    (type : String) : List BodyElem :=
  removeFirst isNotificationElem body ++ [.notification message type]

/-- The popup variant of `showNotification(message)` (`script.js` lines
578-624; the active declaration in the `part_000` copies, lines 493-539):
identical remove-then-append structure on the `.notification-popup`
class. -/
def showNotificationPopup (body : List BodyElem) (message : String) :
    List BodyElem :=
  removeFirst isNotificationPopup body ++ [.notificationPopup message]

/-- The auto-remove timer firing (`script.js` lines 992-996): the toast
removes itself if still attached; with at most one toast attached this is
the first `.notification` element. -/
def notificationTimeout (body : List BodyElem) : List BodyElem :=
  removeFirst isNotificationElem body

/-- How many `.notification` toasts the body holds. -/
def notifCount (body : List BodyElem) : ℕ :=
  (body.filter isNotificationElem).length

/-- How many `.notification-popup` toasts the body holds. -/
def popupCount (body : List BodyElem) : ℕ :=
  (body.filter isNotificationPopup).length

/-! ## Email contact functions (`script.js` lines 799-876) -/

/-- The characters `encodeURIComponent` leaves unescaped:
`A-Z a-z 0-9 - _ . ! ~ * ' ( )` (ECMA-262 `uriUnescaped`). -/
def uriUnreserved (c : Char) : Bool :=
  c.isAlpha || c.isDigit || c = '-' || c = '_' || c = '.' || c = '!' ||
    c = '~' || c = '*' || c = Char.ofNat 39 || c = '(' || c = ')'

/-- An uppercase hexadecimal digit. -/
def hexDigitChar (n : ℕ) : Char :=
  if n < 10 then Char.ofNat (48 + n) else Char.ofNat (55 + n)

/-- `%XX` for one byte. -/
def byteToPercent (b : ℕ) : String :=
  String.mk ['%', hexDigitChar (b / 16), hexDigitChar (b % 16)]

/-- The UTF-8 bytes of a character (code points below `0x110000`,
surrogates excluded by `Char`). -/
def utf8Bytes (c : Char) : List ℕ :=
  let n := c.toNat
  if n < 0x80 then [n]
  else if n < 0x800 then [0xC0 + n / 0x40, 0x80 + n % 0x40]
  else if n < 0x10000 then
    [0xE0 + n / 0x1000, 0x80 + n / 0x40 % 0x40, 0x80 + n % 0x40]
  else
    [0xF0 + n / 0x40000, 0x80 + n / 0x1000 % 0x40, 0x80 + n / 0x40 % 0x40,
     0x80 + n % 0x40]

/-- JavaScript `encodeURIComponent`: unreserved characters pass through,
every other character is replaced by the percent-encoding of its UTF-8
bytes. -/
def encodeURIComponent (s : String) : String :=
  s.data.foldl
    (fun acc c =>
      acc ++ if uriUnreserved c then String.singleton c
             else String.join ((utf8Bytes c).map byteToPercent))
    ""

/-- The named fields of `#quickContactForm` that `sendQuickEmail` reads
via `FormData` (`script.js` lines 845-850). -/
structure ContactForm where
  senderName : String
  senderEmail : String
  subject : String
  message : String
  deriving DecidableEq, Repr

/-- `sendQuickEmail(event)` (`script.js` lines 841-870): builds the mailto
link from the form fields with no validation, assigns it to
`window.location.href`, shows a notification and resets the form.  The
result is the navigated-to link and the form after `form.reset()`. -/
def sendQuickEmail (form : ContactForm) : String × ContactForm :=
  let emailSubject := "Portfolio Contact: " ++ form.subject
  let emailBody :=
    "Name: " ++ form.senderName ++ "\nEmail: " ++ form.senderEmail ++
      "\n\nMessage:\n" ++ form.message ++
      "\n\n---\nSent from your portfolio website contact form"
  let mailtoLink :=
    "mailto:sgyanmot@yahoo.com?subject=" ++ encodeURIComponent emailSubject ++
      "&body=" ++ encodeURIComponent emailBody
  (mailtoLink, ⟨"", "", "", ""⟩)

/-- `openDirectEmail()` (`script.js` lines 799-817): the fixed mailto
link it navigates to. -/
def openDirectEmail : String :=
  "mailto:sgyanmot@yahoo.com?subject=" ++
    encodeURIComponent "Hello from your portfolio website" ++ "&body=" ++
    encodeURIComponent
      "Hi Surender,\n\nI visited your portfolio website and would like to get in touch.\n\nBest regards,"

/-- `validateEmail(email)` (`script.js` lines 873-876): the regular
expression `^[^\s@]+@[^\s@]+\.[^\s@]+$` — a nonempty run of
non-whitespace-non-@ characters, an `@`, and a domain (itself free of
whitespace and `@`) containing a `.` with at least one character on each
side.  `\s` is modelled as ASCII whitespace.  Defined only to record that
`sendQuickEmail` never consults it. -/
def validateEmail (email : String) : Bool :=
  let ok := fun (l : List Char) => !l.isEmpty && l.all fun c => !(c = '@' || c.isWhitespace)
  let localPart := email.data.takeWhile fun c => c != '@'
  match email.data.dropWhile fun c => c != '@' with
  | [] => false
  | _ :: domain => ok localPart && ok domain && (domain.dropLast.drop 1).contains '.'

/-! ## Resume data hydration (`script.js` lines 1000-1192) -/

/-- `personalInfo` of `resume-data.json` as `updatePersonalInfo` reads it
(`script.js` lines 1033-1064). -/
structure PersonalInfo where
  name : String
  title : String
  summary : String
  email : List String
  phone : String
  linkedin : String
  deriving DecidableEq, Repr

/-- One entry of the `experience` array (`script.js` lines 1072-1095). -/
structure ExperienceItem where
  period : String
  title : String
  company : String
  description : String
  achievements : List String
  deriving DecidableEq, Repr

/-- One entry of the `projects` array (`script.js` lines 1104-1127). -/
structure ProjectItem where
  title : String
  description : String
  technologies : List String
  deriving DecidableEq, Repr

/-- The `skills` object (`script.js` lines 1139-1160); absent when the
JSON has no `skills` field. -/
structure SkillsData where
  databases : List String
  cloud : List String
  specialties : List String
  deriving DecidableEq, Repr

/-- The `stats` object (`script.js` lines 1165-1186). -/
structure StatsData where
  experience : String
  migrations : String
  customers : String
  uptime : String
  deriving DecidableEq, Repr

/-- A parsed `resume-data.json` object. -/
structure ResumeData where
  personalInfo : PersonalInfo
  experience : List ExperienceItem
  projects : List ProjectItem
  skills : Option SkillsData
  stats : Option StatsData
  deriving DecidableEq, Repr

/-- JavaScript `String.prototype.replace` with a string pattern: only the
FIRST occurrence of `pat` is replaced. -/
def jsReplaceFirst (s pat repl : String) : String :=
  match s.splitOn pat with
  | [] => s
  | [_] => s
  | first :: rest => first ++ repl ++ String.intercalate pat rest

/-- The DOM text the hydration functions overwrite.  Every field holds the
element's current text (`Option.none` when `querySelector` /
`getElementById` finds no such element).  `experienceTimeline` and
`projectsGrid` hold the `innerHTML` of each appended child,
`contactDetails`, `expertiseGrid` and `statsGrid` the container's
`innerHTML`. -/
structure Dom where
  docTitle : String
  nameText : Option String
  titleText : Option String
  descriptionText : Option String
  contactDetails : Option String
  aboutIntroH3 : Option String
  aboutIntroH4 : Option String
  aboutIntroP : Option String
  professionalSummary : Option String
  expertiseGrid : Option String
  experienceTimeline : Option (List String)
  projectsGrid : Option (List String)
  statsGrid : Option String
  deriving DecidableEq, Repr

/-- The `.contact-details` innerHTML template (`script.js` lines
1049-1053). -/
def renderContactDetails (p : PersonalInfo) : String :=
  "\n            <p><i class=\"fas fa-envelope\"></i> " ++
    String.intercalate " | " p.email ++
    "</p>\n            <p><i class=\"fas fa-phone\"></i> " ++ p.phone ++
    "</p>\n            <p><i class=\"fab fa-linkedin\"></i> " ++
    jsReplaceFirst p.linkedin "https://" "" ++ "</p>\n        "

/-- `updatePersonalInfo(personalInfo)` (`script.js` lines 1033-1064). -/
def updatePersonalInfo (p : PersonalInfo) (dom : Dom) : Dom :=
  { dom with
    docTitle := p.name ++ " - " ++ p.title,
    nameText := dom.nameText.map fun _ => p.name,
    titleText := dom.titleText.map fun _ => p.title,
    descriptionText := dom.descriptionText.map fun _ => p.summary,
    contactDetails := dom.contactDetails.map fun _ => renderContactDetails p,
    aboutIntroH3 := dom.aboutIntroH3.map fun _ => p.name,
    aboutIntroH4 := dom.aboutIntroH4.map fun _ => p.title,
    aboutIntroP := dom.aboutIntroP.map fun _ => p.summary }

/-- The `timeline-item` innerHTML template (`script.js` lines
1076-1092), with `achievementsList` the `''`-joined `<li>` items. -/
def renderTimelineItem (exp : ExperienceItem) : String :=
  let achievementsList :=
    String.join (exp.achievements.map fun a => "<li>" ++ a ++ "</li>")
  "\n            <div class=\"timeline-date\">" ++ exp.period ++
    "</div>\n            <div class=\"timeline-content\">\n                <h3>" ++
    exp.title ++ "</h3>\n                <h4>" ++ exp.company ++
    "</h4>\n                <div class=\"role-description\">\n                    <p>" ++
    exp.description ++
    "</p>\n                    <ul class=\"achievements\">\n                        " ++
    achievementsList ++
    "\n                    </ul>\n                </div>\n            </div>\n        "

/-- `updateExperienceSection(experience)` (`script.js` lines 1066-1096):
returns untouched when the container is absent or the array is empty,
otherwise clears the container and appends one `timeline-item` per
entry. -/
def updateExperienceSection (experience : List ExperienceItem) (dom : Dom) : Dom :=
  match dom.experienceTimeline with
  | none => dom
  | some _ =>
      if experience.isEmpty then dom
      else { dom with experienceTimeline := some (experience.map renderTimelineItem) }

/-- The `project-card` innerHTML template (`script.js` lines 1108-1124):
the icon is `fa-cloud` for index 0 and `fa-database` otherwise, and
`techTags` is the `''`-joined `tech-tag` spans. -/
def renderProjectCard (index : ℕ) (project : ProjectItem) : String :=
  let techTags :=
    String.join (project.technologies.map fun tech =>
      "<span class=\"tech-tag\">" ++ tech ++ "</span>")
  "\n            <div class=\"project-header\">\n                <i class=\"fas fa-" ++
    (if index = 0 then "cloud" else "database") ++
    "\"></i>\n                <h3>" ++ project.title ++
    "</h3>\n                <span class=\"project-year\">2020-2024</span>\n            </div>\n            <div class=\"project-content\">\n                <p>" ++
    project.description ++
    "</p>\n                <div class=\"project-tech\">\n                    " ++
    techTags ++ "\n                </div>\n            </div>\n        "

/-- `updateProjectsSection(projects)` (`script.js` lines 1098-1128): same
guard as the timeline, then one `project-card` per entry. -/
def updateProjectsSection (projects : List ProjectItem) (dom : Dom) : Dom :=
  match dom.projectsGrid with
  | none => dom
  | some _ =>
      if projects.isEmpty then dom
      else
        { dom with
          projectsGrid := some (projects.enum.map fun p => renderProjectCard p.1 p.2) }

/-- The `.expertise-grid` innerHTML template (`script.js` lines
1140-1161), with the skill lists `', '`-joined. -/
def renderExpertiseGrid (sk : SkillsData) : String :=
  "\n            <div class=\"expertise-item\">\n                <i class=\"fas fa-database\"></i>\n                <h5>Oracle Database Administration</h5>\n                <p>Expert in " ++
    String.intercalate ", " sk.databases ++
    "</p>\n            </div>\n            <div class=\"expertise-item\">\n                <i class=\"fas fa-cloud\"></i>\n                <h5>Multi-Cloud Architecture</h5>\n                <p>Specialized in " ++
    String.intercalate ", " sk.cloud ++
    "</p>\n            </div>\n            <div class=\"expertise-item\">\n                <i class=\"fas fa-shield-alt\"></i>\n                <h5>Security & Compliance</h5>\n                <p>Security Program Manager with expertise in risk compliance and security teams</p>\n            </div>\n            <div class=\"expertise-item\">\n                <i class=\"fas fa-tachometer-alt\"></i>\n                <h5>Performance & Migration</h5>\n                <p>" ++
    String.intercalate ", " sk.specialties ++
    "</p>\n            </div>\n        "

/-- `updateAboutSection(data)` (`script.js` lines 1130-1163). -/
def updateAboutSection (data : ResumeData) (dom : Dom) : Dom :=
  let dom1 :=
    { dom with
      professionalSummary :=
        dom.professionalSummary.map fun _ => data.personalInfo.summary }
  match dom1.expertiseGrid, data.skills with
  | some _, some sk => { dom1 with expertiseGrid := some (renderExpertiseGrid sk) }
  | _, _ => dom1

/-- The `.stats-grid` innerHTML template (`script.js` lines 1169-1186),
with the JavaScript first-occurrence `replace` transformations. -/
def renderStatsGrid (stats : StatsData) : String :=
  "\n        <div class=\"stat-item\">\n            <span class=\"stat-number\">" ++
    jsReplaceFirst stats.experience " Years" "+" ++
    "</span>\n            <span class=\"stat-label\">Years Experience</span>\n        </div>\n        <div class=\"stat-item\">\n            <span class=\"stat-number\">" ++
    jsReplaceFirst stats.migrations " Customer Migrations" "+" ++
    "</span>\n            <span class=\"stat-label\">Customer Migrations</span>\n        </div>\n        <div class=\"stat-item\">\n            <span class=\"stat-number\">" ++
    jsReplaceFirst stats.customers " Customers Supported" "+" ++
    "</span>\n            <span class=\"stat-label\">Customers Supported</span>\n        </div>\n        <div class=\"stat-item\">\n            <span class=\"stat-number\">" ++
    jsReplaceFirst stats.uptime " Uptime Achieved" "" ++
    "</span>\n            <span class=\"stat-label\">Uptime Achieved</span>\n        </div>\n    "

/-- `updateStats(stats)` (`script.js` lines 1165-1187): returns untouched
when the container is absent or `stats` is falsy. -/
def updateStats (stats : Option StatsData) (dom : Dom) : Dom :=
  match dom.statsGrid, stats with
  | some _, some st => { dom with statsGrid := some (renderStatsGrid st) }
  | _, _ => dom

/-- `updateWebsiteContent(data)` (`script.js` lines 1016-1031). -/
def updateWebsiteContent (data : ResumeData) (dom : Dom) : Dom :=
  updateStats data.stats
    (updateAboutSection data
      (updateProjectsSection data.projects
        (updateExperienceSection data.experience
          (updatePersonalInfo data.personalInfo dom))))

/-- The outcome of `fetch('./resume-data.json')` followed by
`response.json()`: success with parsed data, a non-ok HTTP status (the
`!response.ok` throw, `script.js` lines 1003-1005), a network failure of
`fetch` itself, or a JSON parse failure. -/
inductive FetchResult
  | success (data : ResumeData)
  | httpError (status : ℕ)
  | networkError
  | parseError
  deriving DecidableEq, Repr

/-- Whether the try block threw before `updateWebsiteContent` ran. -/
def FetchResult.isFailure : FetchResult → Bool
  | .success _ => false
  | _ => true

/-- `loadResumeData()` (`script.js` lines 1000-1014): on success the DOM
is hydrated and a success toast shown; on any failure the catch block
leaves the DOM alone and shows the error toast.  The second component is
the `(message, type)` passed to `showNotification`. -/
def loadResumeData (r : FetchResult) (dom : Dom) : Dom × (String × String) :=
  match r with
  | .success data =>
      (updateWebsiteContent data dom, ("Resume data synchronized successfully!", "success"))
  | _ => (dom, ("Failed to load latest resume data. Using cached content.", "error"))

/-! ## Theme management and persistent storage (`script.js` lines 188-251) -/

/-- The browser's `localStorage`, key to value (later `setItem` overwrites
the earlier value of the same key). -/
def LocalStorage := List (String × String)
  deriving DecidableEq

/-- `localStorage.getItem(k)`. -/
def storeGet (store : LocalStorage) (k : String) : Option String :=
  match store with
  | [] => none
  | (k1, v1) :: rest => if k1 = k then some v1 else storeGet rest k

/-- `localStorage.setItem(k, v)`. -/
def storeSet (store : LocalStorage) (k v : String) : LocalStorage :=
  match store with
  | [] => [(k, v)]
  | (k1, v1) :: rest => if k1 = k then (k, v) :: rest else (k1, v1) :: storeSet rest k v

/-- The document attributes `ThemeManager.setTheme` writes: the
`data-theme` attribute of `document.documentElement` and the content of the
`meta[name="theme-color"]` element (absent when `none`). -/
structure ThemeDoc where
  dataTheme : String
  metaThemeColor : Option String
  deriving DecidableEq, Repr

/-- `ThemeManager`'s own field (`script.js` lines 189-193). -/
structure ThemeState where
  currentTheme : String
  deriving DecidableEq, Repr

namespace ThemeManager

/-- `setTheme(theme)` (`script.js` lines 202-212): stores the theme in the
instance, writes the `data-theme` attribute, PERSISTS the theme with
`localStorage.setItem('theme', theme)`, and updates the meta theme-color
when that element exists. -/
def setTheme (theme : String) (ts : ThemeState) (store : LocalStorage)
    (doc : ThemeDoc) : ThemeState × LocalStorage × ThemeDoc :=
  (⟨theme⟩, storeSet store "theme" theme,
   { dataTheme := theme,
     metaThemeColor :=
       doc.metaThemeColor.map fun _ => if theme = "dark" then "#111827" else "#ffffff" })

/-- `init()` (`script.js` lines 195-200): reads the saved theme (default
`'light'`) and applies it through `setTheme`. -/
def applyInit (ts : ThemeState) (store : LocalStorage) (doc : ThemeDoc) :
    ThemeState × LocalStorage × ThemeDoc :=
  setTheme ((storeGet store "theme").getD "light") ts store doc

/-- `toggleTheme()` (`script.js` lines 214-226): flips light/dark and
applies it through `setTheme` (the `'button'` click sound and the
transition timer do not touch storage or theme state). -/
def toggleTheme (ts : ThemeState) (store : LocalStorage) (doc : ThemeDoc) :
    ThemeState × LocalStorage × ThemeDoc :=
  setTheme (if ts.currentTheme = "light" then "dark" else "light") ts store doc

end ThemeManager

/-! ## The whole-page state and its operations (for the frame claim) -/

/-- Everything the script's operations can read or write: the persistent
store, the theme manager and the document attributes it writes, the sound
system, the navigation state, the body's toasts, the hydrated DOM text,
the contact form and the current navigation target of
`window.location.href`. -/
structure World where
  store : LocalStorage
  themeState : ThemeState
  themeDoc : ThemeDoc
  sound : SoundSystemState
  page : PageState
  body : List BodyElem
  dom : Dom
  contactForm : ContactForm
  location : Option String

/-- The operations the claim enumerates, as wired in the script: sound
playback, theme switching (toggle, direct set, and `ThemeManager.init`),
navigation, notification display, email construction
(`sendQuickEmail`), and JSON hydration (`loadResumeData`). -/
inductive WorldOp
  | playSound (name : String) (t : ℚ)
  | themeToggle
  | themeSet (theme : String)
  | themeInit
  | navigate (op : NavOp)
  | notify (message : String) (type : String)
  | composeEmail (senderName senderEmail subject message : String)
  | hydrate (r : FetchResult)

/-- Whether the operation goes through `ThemeManager.setTheme`. -/
def WorldOp.isThemeOp : WorldOp → Bool
  | .themeToggle => true
  | .themeSet _ => true
  | .themeInit => true
  | _ => false

/-- One operation's effect on the whole page, each case defined by the
source function it names.  `themeToggle` also plays the `'button'` sound
(`script.js` line 219), which leaves the sound state unchanged;
`composeEmail` navigates and shows its toast (`script.js` lines 860-863);
`hydrate` shows the toast `loadResumeData` reports. -/
def applyWorldOp (op : WorldOp) (w : World) : World :=
  match op with
  | .playSound name t => { w with sound := (SoundSystem.play w.sound name t).1 }
  | .themeToggle =>
      let r := ThemeManager.toggleTheme w.themeState w.store w.themeDoc
      { w with themeState := r.1, store := r.2.1, themeDoc := r.2.2,
               sound := (SoundSystem.play w.sound "button" 0).1 }
  | .themeSet theme =>
      let r := ThemeManager.setTheme theme w.themeState w.store w.themeDoc
      { w with themeState := r.1, store := r.2.1, themeDoc := r.2.2 }
  | .themeInit =>
      let r := ThemeManager.applyInit w.themeState w.store w.themeDoc
      { w with themeState := r.1, store := r.2.1, themeDoc := r.2.2 }
  | .navigate nop => { w with page := applyNav nop w.page }
  | .notify message type => { w with body := showNotification w.body message type }
  | .composeEmail n e s m =>
      let r := sendQuickEmail ⟨n, e, s, m⟩
      { w with location := some r.1, contactForm := r.2,
               body := showNotification w.body "Opening email client with your message..." "info" }
  | .hydrate r =>
      let res := loadResumeData r w.dom
      { w with dom := res.1, body := showNotification w.body res.2.1 res.2.2 }

/-! ## Concrete instances used as witnesses and counterexamples -/

/-- A tone-copy instance muted via `setVolume(-1)`: its volume is clamped
to 0. -/
def mutedToneSystem : SoundSystemState :=
  SoundSystem.setVolume (mkSoundSystem true ToneCopy.createSounds 0.3) (-1)

/-- A soft-click instance at full initial volume. -/
def softSystem : SoundSystemState :=
  mkSoundSystem true SoftClickCopy.createSounds 0.4

/-- A document in its pre-hydration placeholder state. -/
def placeholderDom : Dom :=
  { docTitle := "Old Title",
    nameText := some "Old Name",
    titleText := some "Old Job Title",
    descriptionText := some "Old description",
    contactDetails := some "Old contact",
    aboutIntroH3 := some "Old intro h3",
    aboutIntroH4 := some "Old intro h4",
    aboutIntroP := some "Old intro p",
    professionalSummary := some "Old summary",
    expertiseGrid := some "Old expertise",
    experienceTimeline := some ["PLACEHOLDER TIMELINE ITEM"],
    projectsGrid := some ["PLACEHOLDER PROJECT CARD"],
    statsGrid := some "PLACEHOLDER STATS" }

/-- A fetched resume-data object whose `experience` array is empty. -/
def emptyExperienceData : ResumeData :=
  { personalInfo :=
      { name := "Surender Gyanmote", title := "Cloud Architect",
        summary := "A summary", email := ["sgyanmot@yahoo.com"],
        phone := "555-0100", linkedin := "https://linkedin.com/in/sgyanmote" },
    experience := [],
    projects := [⟨"Cloud Migration", "A migration project", ["OCI"]⟩],
    skills := none,
    stats := none }

/-- A fetched resume-data object with every section populated. -/
def sampleResumeData : ResumeData :=
  { personalInfo :=
      { name := "Surender Gyanmote", title := "Cloud Architect",
        summary := "A summary", email := ["sgyanmot@yahoo.com"],
        phone := "555-0100", linkedin := "https://linkedin.com/in/sgyanmote" },
    experience := [⟨"2020-2024", "Lead DBA", "Oracle", "Ran migrations", ["Did a", "Did b"]⟩],
    projects := [⟨"Cloud Migration", "A migration project", ["OCI", "AWS"]⟩],
    skills := some ⟨["Oracle 19c"], ["OCI"], ["Zero-downtime migration"]⟩,
    stats := some ⟨"16 Years", "500 Customer Migrations", "100 Customers Supported",
      "99.9% Uptime Achieved"⟩ }

/-- A whole-page state with empty storage and an idle page. -/
def exampleWorld : World :=
  { store := [],
    themeState := ⟨"light"⟩,
    themeDoc := ⟨"light", none⟩,
    sound := mkSoundSystem true ToneCopy.createSounds 0.3,
    page := ⟨some "flex", []⟩,
    body := [],
    dom := placeholderDom,
    contactForm := ⟨"", "", "", ""⟩,
    location := none }

/-! ## Lemmas about the sound system -/

/-- `play` writes no field of the instance. -/
theorem play_state_eq (st : SoundSystemState) (name : String) (t : ℚ) :
    (SoundSystem.play st name t).1 = st := by
  unfold SoundSystem.play
  split
  · rfl
  · split <;> rfl

/-- Every `soundConfig` per-type volume lies in `[0, 1]`. -/
theorem softConfig_volume_bounds (ty : String) :
    0 ≤ (softConfig ty).volume ∧ (softConfig ty).volume ≤ 1 := by
  unfold softConfig
  split <;> norm_num

/-- Every `soundConfig` duration is at least 8 ms. -/
theorem softConfig_duration_lb (ty : String) :
    (0.008 : ℚ) ≤ (softConfig ty).duration := by
  unfold softConfig
  split <;> norm_num

/-- No scheduled gain-ramp target exceeds `max volume 0.001` (for a
nonnegative volume): every ramp peak is `volume` times a factor at most 1,
and the exponential-release targets are the constant floor `0.001`. -/
theorem runSpec_gainTargets_le (spec : SoundSpec) (vol t : ℚ) (hvol : 0 ≤ vol) :
    ∀ src ∈ runSpec spec vol t, ∀ g ∈ src.gainTargets, g ≤ max vol 0.001 := by
  have hmax0 : (0 : ℚ) ≤ max vol 0.001 := le_trans (by norm_num) (le_max_right vol 0.001)
  have hfloor : (0.001 : ℚ) ≤ max vol 0.001 := le_max_right vol 0.001
  have hvmax : vol ≤ max vol 0.001 := le_max_left vol 0.001
  intro src hsrc g hg
  cases spec with
  | softClick ty =>
      obtain ⟨hc0, hc1⟩ := softConfig_volume_bounds ty
      simp only [runSpec, List.mem_append, List.mem_cons, List.not_mem_nil, or_false] at hsrc
      rcases hsrc with (rfl | rfl | rfl) | hsrc
      · simp only [List.mem_cons, List.not_mem_nil, or_false] at hg
        rcases hg with rfl | rfl | rfl | rfl | rfl <;> nlinarith
      · simp only [List.mem_cons, List.not_mem_nil, or_false] at hg
        rcases hg with rfl | rfl | rfl <;> nlinarith
      · simp only [List.mem_cons, List.not_mem_nil, or_false] at hg
        rcases hg with rfl | rfl | rfl
        · exact hmax0
        · split <;> nlinarith
        · exact hfloor
      · split at hsrc
        · simp at hsrc
        · simp only [List.mem_cons, List.not_mem_nil, or_false] at hsrc
          subst hsrc
          simp only [List.mem_cons, List.not_mem_nil, or_false] at hg
          rcases hg with rfl | rfl | rfl <;> nlinarith
  | keyboardSound freqs d =>
      simp only [runSpec, List.mem_append, List.mem_cons, List.not_mem_nil, or_false] at hsrc
      rcases hsrc with hsrc | rfl
      · obtain ⟨p, hp, rfl⟩ := List.mem_map.mp hsrc
        simp only [List.mem_cons, List.not_mem_nil, or_false] at hg
        have hi : (0 : ℚ) ≤ (p.1 : ℚ) := Nat.cast_nonneg p.1
        rcases hg with rfl | rfl | rfl <;> nlinarith
      · simp only [List.mem_cons, List.not_mem_nil, or_false] at hg
        rcases hg with rfl | rfl | rfl <;> nlinarith
  | keyboardChord freqs d =>
      simp only [runSpec, List.mem_append, List.mem_cons, List.not_mem_nil, or_false] at hsrc
      rcases hsrc with hsrc | rfl
      · obtain ⟨p, hp, rfl⟩ := List.mem_map.mp hsrc
        simp only [List.mem_cons, List.not_mem_nil, or_false] at hg
        rcases hg with rfl | rfl | rfl <;> nlinarith
      · simp only [List.mem_cons, List.not_mem_nil, or_false] at hg
        rcases hg with rfl | rfl | rfl <;> nlinarith
  | tone f d w =>
      simp only [runSpec, List.mem_cons, List.not_mem_nil, or_false] at hsrc
      subst hsrc
      simp only [List.mem_cons, List.not_mem_nil, or_false] at hg
      rcases hg with rfl | rfl | rfl <;> nlinarith
  | chord freqs d =>
      simp only [runSpec] at hsrc
      obtain ⟨p, hp, rfl⟩ := List.mem_map.mp hsrc
      simp only [List.mem_cons, List.not_mem_nil, or_false] at hg
      rcases hg with rfl | rfl | rfl <;> nlinarith
  | heavyMetal f d =>
      simp only [runSpec, List.mem_cons, List.not_mem_nil, or_false] at hsrc
      subst hsrc
      simp only [List.mem_cons, List.not_mem_nil, or_false] at hg
      rcases hg with rfl | rfl | rfl <;> nlinarith

/-- The `constructor` + `init` state keeps the written initial volume. -/
theorem mkSoundSystem_volume (audioOk : Bool) (table : String → Option SoundSpec)
    (v0 : ℚ) : (mkSoundSystem audioOk table v0).volume = v0 := by
  unfold mkSoundSystem
  split <;> rfl

/-- One sound-system call keeps the volume inside `[0, 1]`. -/
theorem applySoundOp_volume_bounds (st : SoundSystemState) (op : SoundOp)
    (h0 : 0 ≤ st.volume) (h1 : st.volume ≤ 1) :
    0 ≤ (applySoundOp st op).volume ∧ (applySoundOp st op).volume ≤ 1 := by
  cases op with
  | toggle => exact ⟨h0, h1⟩
  | setVolume v =>
      refine ⟨le_max_left 0 _, ?_⟩
      exact max_le (by norm_num) (min_le_left 1 v)
  | play name t =>
      have h := play_state_eq st name t
      simpa [applySoundOp, h] using And.intro h0 h1

/-- Any sound-system call sequence keeps the volume inside `[0, 1]`. -/
theorem runSoundOps_volume_bounds (ops : List SoundOp) :
    ∀ st : SoundSystemState, 0 ≤ st.volume → st.volume ≤ 1 →
      0 ≤ (runSoundOps st ops).volume ∧ (runSoundOps st ops).volume ≤ 1 := by
  induction ops with
  | nil => exact fun st h0 h1 => ⟨h0, h1⟩
  | cons op ops ih =>
      intro st h0 h1
      obtain ⟨g0, g1⟩ := applySoundOp_volume_bounds st op h0 h1
      exact ih (applySoundOp st op) g0 g1

/-- C8: `SoundSystem.play(name)` is a total no-op at the public interface
whenever it cannot sensibly play: for a name not in the `sounds` table,
or whenever the audio context is missing or sounds are disabled, it
creates no audio nodes, raises no error, and leaves the whole state
(`sounds`, `isEnabled`, `volume`) unchanged. -/
theorem play_noop_when_unplayable :
    ∀ (st : SoundSystemState) (name : String) (t : ℚ),
      st.sounds name = none ∨ st.hasAudioContext = false ∨ st.isEnabled = false →
      SoundSystem.play st name t = (st, []) := by
  intro st name t h
  rcases h with h | h | h <;> cases hs : st.sounds name <;>
    simp_all [SoundSystem.play]

/-- Witness for C8 at a concrete input: with `init` failed (no audio
context, empty table) playing `'click'` returns everything unchanged. -/
theorem play_noop_when_unplayable_witness :
    SoundSystem.play (mkSoundSystem false SoftClickCopy.createSounds 0.4) "click" 0
      = (mkSoundSystem false SoftClickCopy.createSounds 0.4, []) :=
  play_noop_when_unplayable _ "click" 0 (Or.inr (Or.inl rfl))

/-- C9 counterexample: in the reachable state `mutedToneSystem` the stored
volume is 0, yet playing `'click'` schedules a gain-ramp target of `0.001`
(the envelope's exponential-release floor, `part_000` line 889), which
exceeds the volume — so "playback gain never exceeds the volume field"
fails as stated. -/
theorem gain_floor_exceeds_volume_counterexample :
    mutedToneSystem.volume = 0 ∧
    ∃ src ∈ (SoundSystem.play mutedToneSystem "click" 0).2,
      ∃ g ∈ src.gainTargets, mutedToneSystem.volume < g := by
  have hv : mutedToneSystem.volume = 0 := by
    simp [mutedToneSystem, SoundSystem.setVolume, mkSoundSystem]
  refine ⟨hv, ⟨0, 0 + 0.1, [.oscillator, .gainNode, .destination],
    [0, mutedToneSystem.volume, 0.001]⟩, ?_, 0.001, by simp, by rw [hv]; norm_num⟩
  simp [mutedToneSystem, SoundSystem.play, SoundSystem.setVolume, mkSoundSystem,
    ToneCopy.createSounds, runSpec]

/-- C9 amended: `setVolume` clamps exactly as claimed, the constructor
volumes (0.4, 0.2, 0.3 in the three copies) lie in `[0, 1]`, every
reachable state keeps `0 ≤ volume ≤ 1`, and playback gain never exceeds
`max volume 0.001` — the `0.001` being the constant exponential-release
floor every envelope decays to, which is the only scheduled gain value
that can exceed the stored volume. -/
theorem volume_invariant_and_gain_bound :
    (∀ (st : SoundSystemState) (v : ℚ),
        (0 ≤ v → v ≤ 1 → (SoundSystem.setVolume st v).volume = v)
      ∧ (v < 0 → (SoundSystem.setVolume st v).volume = 0)
      ∧ (1 < v → (SoundSystem.setVolume st v).volume = 1))
  ∧ (∀ (audioOk : Bool) (table : String → Option SoundSpec) (v0 : ℚ),
        v0 = 0.4 ∨ v0 = 0.2 ∨ v0 = 0.3 →
        0 ≤ (mkSoundSystem audioOk table v0).volume ∧
          (mkSoundSystem audioOk table v0).volume ≤ 1)
  ∧ (∀ (audioOk : Bool) (table : String → Option SoundSpec) (v0 : ℚ)
        (ops : List SoundOp), 0 ≤ v0 → v0 ≤ 1 →
        0 ≤ (runSoundOps (mkSoundSystem audioOk table v0) ops).volume ∧
          (runSoundOps (mkSoundSystem audioOk table v0) ops).volume ≤ 1)
  ∧ (∀ st : SoundSystemState, 0 ≤ st.volume →
      ∀ (name : String) (t : ℚ), ∀ src ∈ (SoundSystem.play st name t).2,
        ∀ g ∈ src.gainTargets, g ≤ max st.volume 0.001) := by
  refine ⟨fun st v => ⟨?_, ?_, ?_⟩, ?_, ?_, ?_⟩
  · intro h0 h1
    simp [SoundSystem.setVolume, min_eq_right h1, max_eq_right h0]
  · intro h
    have hle : v ≤ 1 := le_trans (le_of_lt h) (by norm_num)
    simp [SoundSystem.setVolume, min_eq_right hle, max_eq_left (le_of_lt h)]
  · intro h
    simp [SoundSystem.setVolume, min_eq_left (le_of_lt h)]
  · intro audioOk table v0 hv0
    rw [mkSoundSystem_volume]
    rcases hv0 with rfl | rfl | rfl <;> norm_num
  · intro audioOk table v0 ops h0 h1
    refine runSoundOps_volume_bounds ops _ ?_ ?_ <;>
      rw [mkSoundSystem_volume] <;> assumption
  · intro st hst name t src hsrc g hg
    unfold SoundSystem.play at hsrc
    split at hsrc
    · simp at hsrc
    · split at hsrc
      · exact runSpec_gainTargets_le _ st.volume t hst src hsrc g hg
      · simp at hsrc

/-- Witness for C9 at a concrete input: `setVolume(2)` clamps to 1. -/
theorem volume_invariant_witness :
    (SoundSystem.setVolume (mkSoundSystem true ToneCopy.createSounds 0.3) 2).volume = 1 :=
  (volume_invariant_and_gain_bound.1 _ 2).2.2 (by norm_num)

/-- An index below the list length contributes a stagger of at most
`(length - 1) * step`. -/
theorem stagger_le {i len : ℕ} (hi : i < len) (step d : ℚ) (hstep : 0 ≤ step)
    (hlast : ((len : ℚ) - 1) * step ≤ d) : (i : ℚ) * step ≤ d := by
  have h1 : (i : ℚ) + 1 ≤ (len : ℚ) := by exact_mod_cast Nat.succ_le_of_lt hi
  nlinarith

/-- Time bounds for the soft-click sources: all start within the
configured duration and all cease by twice the duration (the un-stopped
noise source ends `0.002` after `t + duration`, within the doubled
bound). -/
theorem softClick_time_bounds (ty : String) (vol t : ℚ) :
    ∀ src ∈ runSpec (.softClick ty) vol t,
      src.startTime ≤ t + (SoundSpec.softClick ty).duration ∧
      src.endTime ≤ t + 2 * (SoundSpec.softClick ty).duration := by
  have hd := softConfig_duration_lb ty
  intro src hsrc
  simp only [runSpec, List.mem_append, List.mem_cons, List.not_mem_nil, or_false] at hsrc
  rcases hsrc with (rfl | rfl | rfl) | hsrc
  · constructor <;> simp only [SoundSpec.duration] <;> linarith
  · constructor <;> simp only [SoundSpec.duration] <;> linarith
  · constructor <;> simp only [SoundSpec.duration] <;> linarith
  · split at hsrc
    · simp at hsrc
    · simp only [List.mem_cons, List.not_mem_nil, or_false] at hsrc
      subst hsrc
      constructor <;> simp only [SoundSpec.duration] <;> linarith

/-- Time bounds for `createKeyboardSound`, given that the per-index
5 ms stagger stays within the duration. -/
theorem keyboardSound_time_bounds (freqs : List ℚ) (d vol t : ℚ) (h0 : 0 ≤ d)
    (hlast : ((freqs.length : ℚ) - 1) * 0.005 ≤ d) :
    ∀ src ∈ runSpec (.keyboardSound freqs d) vol t,
      src.startTime ≤ t + d ∧ src.endTime ≤ t + 2 * d := by
  intro src hsrc
  simp only [runSpec, List.mem_append, List.mem_cons, List.not_mem_nil, or_false] at hsrc
  rcases hsrc with hsrc | rfl
  · obtain ⟨p, hp, rfl⟩ := List.mem_map.mp hsrc
    have hip : p.1 < freqs.length :=
      (List.getElem?_eq_some.mp (List.mem_enum_iff_getElem?.mp hp)).1
    have hle : (p.1 : ℚ) * 0.005 ≤ d := stagger_le hip 0.005 d (by norm_num) hlast
    constructor <;> simp only [] <;> linarith
  · constructor <;> simp only [] <;> linarith

/-- Time bounds for `createKeyboardChord` (30 ms `setTimeout` stagger). -/
theorem keyboardChord_time_bounds (freqs : List ℚ) (d vol t : ℚ) (h0 : 0 ≤ d)
    (hlast : ((freqs.length : ℚ) - 1) * 0.03 ≤ d) :
    ∀ src ∈ runSpec (.keyboardChord freqs d) vol t,
      src.startTime ≤ t + d ∧ src.endTime ≤ t + 2 * d := by
  intro src hsrc
  simp only [runSpec, List.mem_append, List.mem_cons, List.not_mem_nil, or_false] at hsrc
  rcases hsrc with hsrc | rfl
  · obtain ⟨p, hp, rfl⟩ := List.mem_map.mp hsrc
    have hip : p.1 < freqs.length :=
      (List.getElem?_eq_some.mp (List.mem_enum_iff_getElem?.mp hp)).1
    have hle : (p.1 : ℚ) * 0.03 ≤ d := stagger_le hip 0.03 d (by norm_num) hlast
    constructor <;> simp only [] <;> linarith
  · constructor <;> simp only [] <;> linarith

/-- Time bounds for `createTone`: one source from `t` to `t + d`. -/
theorem tone_time_bounds (f d : ℚ) (w : WaveType) (vol t : ℚ) (h0 : 0 ≤ d) :
    ∀ src ∈ runSpec (.tone f d w) vol t,
      src.startTime ≤ t + d ∧ src.endTime ≤ t + 2 * d := by
  intro src hsrc
  simp only [runSpec, List.mem_cons, List.not_mem_nil, or_false] at hsrc
  subst hsrc
  constructor <;> simp only [] <;> linarith

/-- Time bounds for `createChord` (50 ms `setTimeout` stagger). -/
theorem chord_time_bounds (freqs : List ℚ) (d vol t : ℚ) (h0 : 0 ≤ d)
    (hlast : ((freqs.length : ℚ) - 1) * 0.05 ≤ d) :
    ∀ src ∈ runSpec (.chord freqs d) vol t,
      src.startTime ≤ t + d ∧ src.endTime ≤ t + 2 * d := by
  intro src hsrc
  simp only [runSpec] at hsrc
  obtain ⟨p, hp, rfl⟩ := List.mem_map.mp hsrc
  have hip : p.1 < freqs.length :=
    (List.getElem?_eq_some.mp (List.mem_enum_iff_getElem?.mp hp)).1
  have hle : (p.1 : ℚ) * 0.05 ≤ d := stagger_le hip 0.05 d (by norm_num) hlast
  constructor <;> simp only [] <;> linarith

/-- C7 counterexample: playing `'click'` on the soft-click copy at
trigger time 0 schedules a source (the texture-noise buffer source,
started at `0.002` with a buffer of length `duration` and never stopped,
`script.js` lines 136-163) that still sounds at `0.002 + 0.12`, past the
configured duration `0.12` — so "no source is ever scheduled to sound past
trigger time plus duration" fails as stated. -/
theorem click_noise_outlives_duration :
    ∃ src ∈ (SoundSystem.play softSystem "click" 0).2,
      0 + (SoundSpec.softClick "standard").duration < src.endTime := by
  refine ⟨⟨0 + 0.002, 0 + 0.002 + (softConfig "standard").duration,
    [.bufferSource, .biquadFilter, .gainNode, .destination],
    [0, (0.4 : ℚ) * 0.02, 0.001]⟩, ?_, ?_⟩
  · simp [softSystem, SoundSystem.play, mkSoundSystem, SoftClickCopy.createSounds, runSpec]
  · simp only [SoundSpec.duration, softConfig]
    norm_num

/-- C7 amended: for every sound of the three copies' tables, every
scheduled source starts no later than the trigger time plus the sound's
configured duration, and ceases no later than the trigger time plus TWICE
the configured duration (the staggered chord notes and the un-stopped
soft-click noise run past `t + duration` by their start offset, which
never exceeds one extra duration). -/
theorem sound_sources_time_bounded :
    ∀ table : String → Option SoundSpec,
      table = SoftClickCopy.createSounds ∨ table = KeyboardCopy.createSounds ∨
        table = ToneCopy.createSounds →
      ∀ (name : String) (spec : SoundSpec), table name = some spec →
      ∀ (vol t : ℚ), ∀ src ∈ runSpec spec vol t,
        src.startTime ≤ t + spec.duration ∧ src.endTime ≤ t + 2 * spec.duration := by
  intro table htable name spec hspec vol t src hsrc
  rcases htable with rfl | rfl | rfl
  · unfold SoftClickCopy.createSounds at hspec
    split at hspec <;>
      first
        | (simp only [Option.some.injEq] at hspec
           subst hspec
           exact softClick_time_bounds _ vol t src hsrc)
        | cases hspec
  · unfold KeyboardCopy.createSounds at hspec
    split at hspec <;>
      first
        | (simp only [Option.some.injEq] at hspec
           subst hspec
           first
             | exact keyboardSound_time_bounds _ _ vol t
                 (by norm_num [SoundSpec.duration]) (by norm_num [SoundSpec.duration]) src hsrc
             | exact keyboardChord_time_bounds _ _ vol t
                 (by norm_num [SoundSpec.duration]) (by norm_num [SoundSpec.duration]) src hsrc)
        | cases hspec
  · unfold ToneCopy.createSounds at hspec
    split at hspec <;>
      first
        | (simp only [Option.some.injEq] at hspec
           subst hspec
           first
             | exact tone_time_bounds _ _ _ vol t (by norm_num [SoundSpec.duration]) src hsrc
             | exact chord_time_bounds _ _ vol t
                 (by norm_num [SoundSpec.duration]) (by norm_num [SoundSpec.duration]) src hsrc)
        | cases hspec

/-- Witness for C7 at a concrete input: the single source of the
simple-tone `'click'` at trigger 0 starts by the duration and ends by
twice the duration. -/
theorem sound_sources_time_bounded_witness :
    (0 : ℚ) ≤ 0 + (SoundSpec.tone 800 0.1 WaveType.sine).duration ∧
    (0 : ℚ) + 0.1 ≤ 0 + 2 * (SoundSpec.tone 800 0.1 WaveType.sine).duration :=
  sound_sources_time_bounded ToneCopy.createSounds (Or.inr (Or.inr rfl)) "click" _ rfl 1 0
    ⟨0, 0 + 0.1, [.oscillator, .gainNode, .destination], [0, 1, 0.001]⟩
    (by simp [runSpec])

/-- C1: the SoundSystem provides the synthesis strategies the spec names —
the simple-tone copy maps `'click'` to `createTone(800, 0.1, 'sine')`, the
keyboard copy maps `'click'` to the layered `createKeyboardSound([800,
1200], 0.08)` whose graph holds two oscillator layers, and the (spec-
modelled) heavy-metal copy maps `'click'` to the distorted-click
generator, whose signal path inserts a waveshaping distortion node
strictly between the oscillator source and the destination output. -/
theorem synthesis_strategies_present :
    (ToneCopy.createSounds "click" = some (SoundSpec.tone 800 0.1 WaveType.sine))
  ∧ (KeyboardCopy.createSounds "click" = some (SoundSpec.keyboardSound [800, 1200] 0.08))
  ∧ (∀ vol t : ℚ,
      ((runSpec (SoundSpec.keyboardSound [800, 1200] 0.08) vol t).filter
        fun s => s.path.head? == some AudioNode.oscillator).length = 2)
  ∧ (heavyMetalSounds "click" = some (createHeavyMetalSound 150 0.3))
  ∧ (∀ vol t : ℚ, ∃ src ∈ runSpec (createHeavyMetalSound 150 0.3) vol t,
      src.path = [AudioNode.oscillator, AudioNode.waveShaper,
                  AudioNode.gainNode, AudioNode.destination]) := by
  refine ⟨rfl, rfl, fun vol t => rfl, rfl, fun vol t => ?_⟩
  exact ⟨⟨t, t + 0.3, [.oscillator, .waveShaper, .gainNode, .destination],
    [0, vol, 0.001]⟩, by simp [createHeavyMetalSound, runSpec], rfl⟩

/-! ## Lemmas about section navigation -/

/-- After `classList.add('hidden')` on every section, every section is
hidden. -/
theorem mem_hideAllSections {ss : List ContentSection} {s : ContentSection}
    (h : s ∈ hideAllSections ss) : s.hiddenClass = true := by
  obtain ⟨x, _, rfl⟩ := List.mem_map.mp h
  rfl

/-- After hiding everything and revealing the target, every section whose
id is not the target's is still hidden. -/
theorem mem_revealFirst_ne {sid : String} :
    ∀ {ss : List ContentSection} {s : ContentSection},
      s ∈ revealFirst sid (hideAllSections ss) → s.id ≠ sid → s.hiddenClass = true := by
  intro ss
  induction ss with
  | nil => intro s h _; simp [hideAllSections, revealFirst] at h
  | cons a rest ih =>
      intro s h hne
      simp only [hideAllSections, List.map_cons] at h
      unfold revealFirst at h
      split at h
      · rcases List.mem_cons.mp h with rfl | h
        · exact absurd (by assumption) hne
        · exact mem_hideAllSections (by simpa [hideAllSections] using h)
      · rcases List.mem_cons.mp h with rfl | h
        · rfl
        · exact ih (by simpa [hideAllSections] using h) hne

/-- The first section carrying the target id, after `showSection`'s
passes, is unhidden with display `'block'`. -/
theorem find?_revealFirst {sid : String} :
    ∀ {ss : List ContentSection} {s : ContentSection},
      ((revealFirst sid (hideAllSections ss)).find? fun x => x.id == sid) = some s →
      s.hiddenClass = false ∧ s.display = "block" := by
  intro ss
  induction ss with
  | nil => intro s h; simp [hideAllSections, revealFirst] at h
  | cons a rest ih =>
      intro s h
      simp only [hideAllSections, List.map_cons] at h
      unfold revealFirst at h
      split at h
      · rw [List.find?_cons_of_pos _ (by simp_all)] at h
        cases h
        exact ⟨rfl, rfl⟩
      · rw [List.find?_cons_of_neg _ (by simp_all)] at h
        exact ih (by simpa [hideAllSections] using h)

/-- At most one section is unhidden after hide-all plus reveal-target. -/
theorem revealFirst_visible_count {sid : String} :
    ∀ ss : List ContentSection,
      ((revealFirst sid (hideAllSections ss)).filter fun s => !s.hiddenClass).length ≤ 1 := by
  intro ss
  induction ss with
  | nil => simp [hideAllSections, revealFirst]
  | cons a rest ih =>
      simp only [hideAllSections, List.map_cons]
      unfold revealFirst
      split
      · have hrest :
            ((List.map (fun s => { s with hiddenClass := true }) rest).filter
              fun s => !s.hiddenClass) = [] := by
          refine List.filter_eq_nil_iff.mpr fun x hx => ?_
          obtain ⟨y, _, rfl⟩ := List.mem_map.mp hx
          simp
        simp [List.filter_cons, hrest]
      · simpa [List.filter_cons] using ih

/-- The hero is not visible after `showSection`. -/
theorem heroVisible_showSection (sid : String) (st : PageState) :
    heroVisible (showSection sid st) = false := by
  unfold showSection heroVisible
  cases st.hero <;> simp

/-- `showSection` leaves at most one view visible. -/
theorem countVisible_showSection (sid : String) (st : PageState) :
    countVisible (showSection sid st) ≤ 1 := by
  unfold countVisible
  rw [heroVisible_showSection]
  simpa [showSection] using @revealFirst_visible_count sid st.sections

/-- `showHeroSection` leaves at most one view visible. -/
theorem countVisible_showHeroSection (st : PageState) :
    countVisible (showHeroSection st) ≤ 1 := by
  unfold countVisible
  have hsec :
      ((showHeroSection st).sections.filter fun s => !s.hiddenClass) = [] := by
    refine List.filter_eq_nil_iff.mpr fun x hx => ?_
    obtain ⟨y, _, rfl⟩ := List.mem_map.mp hx
    simp
  rw [hsec]
  split <;> simp

/-- C6: section navigation keeps at most one view visible.  After
`showSection(sectionId)` the hero (when present) has display `'none'`,
every content section other than the target carries `'hidden'`, and the
first element with the target id (when one exists) is shown with display
`'block'`; after `showHeroSection()` every content section is hidden (with
display `'none'`) and the hero (when present) shows with display `'flex'`;
and every navigation operation (nav-link click, desk-object click,
number-key and Escape-key navigation, `openSection`) preserves the
at-most-one-visible-view bound. -/
theorem navigation_single_view :
    (∀ (sid : String) (st : PageState),
        (showSection sid st).hero = st.hero.map (fun _ => "none")
      ∧ (∀ s ∈ (showSection sid st).sections, s.id ≠ sid → s.hiddenClass = true)
      ∧ (∀ s : ContentSection,
            ((showSection sid st).sections.find? fun x => x.id == sid) = some s →
            s.hiddenClass = false ∧ s.display = "block"))
  ∧ (∀ st : PageState,
        (showHeroSection st).hero = st.hero.map (fun _ => "flex")
      ∧ (∀ s ∈ (showHeroSection st).sections, s.hiddenClass = true ∧ s.display = "none"))
  ∧ (∀ (op : NavOp) (st : PageState),
        countVisible st ≤ 1 → countVisible (applyNav op st) ≤ 1) := by
  refine ⟨fun sid st => ⟨rfl, ?_, ?_⟩, fun st => ⟨rfl, ?_⟩, ?_⟩
  · exact fun s hs => mem_revealFirst_ne hs
  · exact fun s hs => find?_revealFirst hs
  · intro s hs
    obtain ⟨y, _, rfl⟩ := List.mem_map.mp hs
    exact ⟨rfl, rfl⟩
  · intro op st hst
    cases op with
    | navLinkClick tid =>
        simp only [applyNav]
        by_cases h : tid = "home"
        · rw [if_pos h]; exact countVisible_showHeroSection st
        · rw [if_neg h]; exact countVisible_showSection tid st
    | deskLaptop => exact countVisible_showSection _ st
    | deskBooks => exact countVisible_showSection _ st
    | deskPhone => exact countVisible_showSection _ st
    | deskExperienceCard => exact countVisible_showSection _ st
    | numberKey k =>
        simp only [applyNav]
        split
        · exact countVisible_showHeroSection st
        · exact countVisible_showSection _ st
        · exact countVisible_showSection _ st
        · exact countVisible_showSection _ st
        · exact hst
    | escapeKey => exact countVisible_showHeroSection st
    | openSectionCall sid => exact countVisible_showSection _ st

/-- Witness for C6 at a concrete input: pressing Escape on a single-section
page leaves at most one view visible. -/
theorem navigation_single_view_witness :
    countVisible (applyNav NavOp.escapeKey
      ⟨some "flex", [⟨"about", true, ""⟩]⟩) ≤ 1 :=
  navigation_single_view.2.2 NavOp.escapeKey
    ⟨some "flex", [⟨"about", true, ""⟩]⟩ (by simp [countVisible, heroVisible])

/-! ## Lemmas about notification toasts -/

/-- Removing the first match drops the matching count by exactly one. -/
theorem count_removeFirst (p : BodyElem → Bool) :
    ∀ body : List BodyElem,
      ((removeFirst p body).filter p).length = (body.filter p).length - 1 := by
  intro body
  induction body with
  | nil => rfl
  | cons x xs ih =>
      unfold removeFirst
      split <;> simp_all [List.filter_cons]

/-- Appending one matching element raises the matching count by one. -/
theorem count_append_single (p : BodyElem → Bool) (body : List BodyElem)
    (e : BodyElem) (h : p e = true) :
    (((body ++ [e]).filter p)).length = (body.filter p).length + 1 := by
  simp [List.filter_append, List.filter_cons, h]

/-- A `showNotification` call on a body with at most one toast leaves
exactly one toast. -/
theorem notifCount_showNotification (body : List BodyElem) (m ty : String)
    (h : notifCount body ≤ 1) : notifCount (showNotification body m ty) = 1 := by
  unfold notifCount showNotification
  rw [count_append_single isNotificationElem (removeFirst isNotificationElem body)
    (.notification m ty) rfl, count_removeFirst]
  unfold notifCount at h
  omega

/-- Any sequence of `showNotification` calls keeps at most one toast. -/
theorem foldl_showNotification_le (msgs : List (String × String)) :
    ∀ body : List BodyElem, notifCount body ≤ 1 →
      notifCount (msgs.foldl (fun b pr => showNotification b pr.1 pr.2) body) ≤ 1 := by
  induction msgs with
  | nil => exact fun body h => h
  | cons pr msgs ih =>
      intro body h
      exact ih (showNotification body pr.1 pr.2)
        (le_of_eq (notifCount_showNotification body pr.1 pr.2 h))

/-- C10: at most one notification toast exists at a time.
`showNotification` first removes the existing `.notification` element (so
a body with at most one toast has none left before the append), a call
leaves exactly one toast, any sequence of calls starting from a
toast-free document keeps at most one, and the `.notification-popup`
variant behaves the same way on its class. -/
theorem notification_at_most_one :
    (∀ body : List BodyElem, notifCount body ≤ 1 →
        notifCount (removeFirst isNotificationElem body) = 0)
  ∧ (∀ (body : List BodyElem) (m ty : String), notifCount body ≤ 1 →
        notifCount (showNotification body m ty) = 1)
  ∧ (∀ (msgs : List (String × String)) (body : List BodyElem), notifCount body = 0 →
        notifCount (msgs.foldl (fun b pr => showNotification b pr.1 pr.2) body) ≤ 1)
  ∧ (∀ (body : List BodyElem) (m : String), popupCount body ≤ 1 →
        popupCount (showNotificationPopup body m) = 1) := by
  refine ⟨?_, notifCount_showNotification, ?_, ?_⟩
  · intro body h
    unfold notifCount at h ⊢
    rw [count_removeFirst]
    omega
  · intro msgs body h
    exact foldl_showNotification_le msgs body (by omega)
  · intro body m h
    unfold popupCount showNotificationPopup
    rw [count_append_single isNotificationPopup (removeFirst isNotificationPopup body)
      (.notificationPopup m) rfl, count_removeFirst]
    unfold popupCount at h
    omega

/-- Witness for C10 at a concrete input: showing a second toast over an
existing one still leaves exactly one. -/
theorem notification_at_most_one_witness :
    notifCount (showNotification
      [BodyElem.notification "first" "info", BodyElem.other "div"] "second" "error") = 1 :=
  notification_at_most_one.2.1 _ "second" "error" (by decide)

/-- C5: for every submitted contact form, `sendQuickEmail` navigates to
exactly the claimed mailto URL — built from the raw field values with no
validation applied (the second conjunct shows `validateEmail` rejecting a
value that the first conjunct nevertheless sends) — and resets the
form. -/
theorem sendQuickEmail_builds_exact_mailto :
    (∀ n e s m : String,
      sendQuickEmail ⟨n, e, s, m⟩ =
        ("mailto:sgyanmot@yahoo.com?subject=" ++
            encodeURIComponent ("Portfolio Contact: " ++ s) ++ "&body=" ++
            encodeURIComponent
              ("Name: " ++ n ++ "\nEmail: " ++ e ++ "\n\nMessage:\n" ++ m ++
                "\n\n---\nSent from your portfolio website contact form"),
          ⟨"", "", "", ""⟩))
  ∧ validateEmail "not an email" = false :=
  ⟨fun _ _ _ _ => rfl, by decide⟩

/-- C2 counterexample: switching the theme persists it —
`ThemeManager.setTheme` calls `localStorage.setItem('theme', theme)`
(`script.js` line 205), so the store changes. -/
theorem theme_switch_writes_localStorage :
    (applyWorldOp (WorldOp.themeSet "dark") exampleWorld).store ≠ exampleWorld.store := by
  simp [applyWorldOp, ThemeManager.setTheme, storeSet, exampleWorld]

/-- C2 amended: no operation other than theme management touches
`localStorage`; sound playback, navigation, notification display, email
construction and JSON hydration leave the store unchanged, while the
theme operations (`setTheme`, `toggleTheme`, `ThemeManager.init`) write
exactly the `'theme'` key. -/
theorem localStorage_frame :
    ∀ (op : WorldOp) (w : World),
      (op.isThemeOp = false → (applyWorldOp op w).store = w.store)
    ∧ (op.isThemeOp = true →
        ∃ theme, (applyWorldOp op w).store = storeSet w.store "theme" theme) := by
  intro op w
  cases op <;>
    simp [applyWorldOp, WorldOp.isThemeOp, ThemeManager.toggleTheme,
      ThemeManager.setTheme, ThemeManager.applyInit]

/-- Witness for C2 at a concrete input: playing a sound leaves the store
unchanged. -/
theorem localStorage_frame_witness :
    (applyWorldOp (WorldOp.playSound "click" 0) exampleWorld).store = exampleWorld.store :=
  (localStorage_frame (WorldOp.playSound "click" 0) exampleWorld).1 rfl

/-- C4: when the fetch fails or the response is not ok, `loadResumeData`
leaves the DOM untouched and reports the error toast; conversely the DOM
differs from its input only when fetched data was available. -/
theorem loadResumeData_error_atomic :
    (∀ (r : FetchResult) (dom : Dom), r.isFailure = true →
        loadResumeData r dom =
          (dom, ("Failed to load latest resume data. Using cached content.", "error")))
  ∧ (∀ (r : FetchResult) (dom : Dom), (loadResumeData r dom).1 ≠ dom →
        ∃ data, r = FetchResult.success data) := by
  constructor
  · intro r dom h
    cases r <;> first | rfl | simp [FetchResult.isFailure] at h
  · intro r dom h
    cases r with
    | success data => exact ⟨data, rfl⟩
    | httpError s => exact absurd rfl h
    | networkError => exact absurd rfl h
    | parseError => exact absurd rfl h

/-- Witness for C4 at a concrete input: a network failure leaves the
placeholder document untouched and shows the error toast. -/
theorem loadResumeData_error_atomic_witness :
    loadResumeData FetchResult.networkError placeholderDom =
      (placeholderDom, ("Failed to load latest resume data. Using cached content.", "error")) :=
  loadResumeData_error_atomic.1 FetchResult.networkError placeholderDom rfl

/-! ## Frame and effect lemmas for the hydration functions -/

/-- `updateExperienceSection` touches only the timeline container. -/
theorem updateExperienceSection_frame (e : List ExperienceItem) (dom : Dom) :
    (updateExperienceSection e dom).docTitle = dom.docTitle ∧
    (updateExperienceSection e dom).nameText = dom.nameText ∧
    (updateExperienceSection e dom).titleText = dom.titleText ∧
    (updateExperienceSection e dom).descriptionText = dom.descriptionText ∧
    (updateExperienceSection e dom).projectsGrid = dom.projectsGrid ∧
    (updateExperienceSection e dom).statsGrid = dom.statsGrid := by
  unfold updateExperienceSection
  split
  · simp
  · split <;> simp

/-- `updateProjectsSection` touches only the projects grid. -/
theorem updateProjectsSection_frame (p : List ProjectItem) (dom : Dom) :
    (updateProjectsSection p dom).docTitle = dom.docTitle ∧
    (updateProjectsSection p dom).nameText = dom.nameText ∧
    (updateProjectsSection p dom).titleText = dom.titleText ∧
    (updateProjectsSection p dom).descriptionText = dom.descriptionText ∧
    (updateProjectsSection p dom).experienceTimeline = dom.experienceTimeline ∧
    (updateProjectsSection p dom).statsGrid = dom.statsGrid := by
  unfold updateProjectsSection
  split
  · simp
  · split <;> simp

/-- `updateAboutSection` touches only the summary and expertise grid. -/
theorem updateAboutSection_frame (data : ResumeData) (dom : Dom) :
    (updateAboutSection data dom).docTitle = dom.docTitle ∧
    (updateAboutSection data dom).nameText = dom.nameText ∧
    (updateAboutSection data dom).titleText = dom.titleText ∧
    (updateAboutSection data dom).descriptionText = dom.descriptionText ∧
    (updateAboutSection data dom).experienceTimeline = dom.experienceTimeline ∧
    (updateAboutSection data dom).projectsGrid = dom.projectsGrid ∧
    (updateAboutSection data dom).statsGrid = dom.statsGrid := by
  unfold updateAboutSection
  dsimp only
  split <;> simp

/-- `updateStats` touches only the stats grid. -/
theorem updateStats_frame (s : Option StatsData) (dom : Dom) :
    (updateStats s dom).docTitle = dom.docTitle ∧
    (updateStats s dom).nameText = dom.nameText ∧
    (updateStats s dom).titleText = dom.titleText ∧
    (updateStats s dom).descriptionText = dom.descriptionText ∧
    (updateStats s dom).experienceTimeline = dom.experienceTimeline ∧
    (updateStats s dom).projectsGrid = dom.projectsGrid := by
  unfold updateStats
  split <;> simp

/-- With a present container and a nonempty array, the timeline is
rebuilt from the fetched entries. -/
theorem updateExperienceSection_sets (e : List ExperienceItem) (dom : Dom)
    (hc : dom.experienceTimeline.isSome = true) (hne : e ≠ []) :
    (updateExperienceSection e dom).experienceTimeline = some (e.map renderTimelineItem) := by
  unfold updateExperienceSection
  split
  · simp_all
  · split
    · simp_all [List.isEmpty_iff]
    · rfl

/-- With a present container and a nonempty array, the projects grid is
rebuilt from the fetched entries. -/
theorem updateProjectsSection_sets (p : List ProjectItem) (dom : Dom)
    (hc : dom.projectsGrid.isSome = true) (hne : p ≠ []) :
    (updateProjectsSection p dom).projectsGrid =
      some (p.enum.map fun pr => renderProjectCard pr.1 pr.2) := by
  unfold updateProjectsSection
  split
  · simp_all
  · split
    · simp_all [List.isEmpty_iff]
    · rfl

/-- With a present container and a present `stats` field, the stats grid
is rebuilt. -/
theorem updateStats_sets (s : StatsData) (dom : Dom)
    (hc : dom.statsGrid.isSome = true) :
    (updateStats (some s) dom).statsGrid = some (renderStatsGrid s) := by
  unfold updateStats
  split
  · simp_all
  · rename_i hnone
    obtain ⟨v, hv⟩ := Option.isSome_iff_exists.mp hc
    exact absurd (hnone v s hv rfl) not_false

/-- C3 counterexample: hydrating the placeholder document from a
successfully fetched object whose `experience` array is empty does NOT
rebuild the timeline from that array — the `!experience.length` guard
(`script.js` line 1068) leaves the placeholder item in place. -/
theorem hydration_skips_empty_experience :
    (loadResumeData (FetchResult.success emptyExperienceData) placeholderDom).1.experienceTimeline
      ≠ some (emptyExperienceData.experience.map renderTimelineItem) := by
  simp [loadResumeData, updateWebsiteContent, updateStats, updateAboutSection,
    updateProjectsSection, updateExperienceSection, updatePersonalInfo,
    emptyExperienceData, placeholderDom]

/-- C3 amended: for every successfully fetched resume-data object,
`loadResumeData` overwrites the placeholder DOM text with the fetched
values: the document title unconditionally becomes `name + ' - ' + title`;
the name/title/description elements receive the fetched name, title and
summary when those elements exist; the experience timeline and projects
grid are rebuilt from the corresponding arrays when the container exists
and the array is nonempty (the code's `!array.length` guard leaves an
empty array's placeholder untouched); and the stats grid is rebuilt when
the container exists and the `stats` field is present. -/
theorem hydration_overwrites_placeholders :
    ∀ (d : ResumeData) (dom : Dom),
      ((loadResumeData (FetchResult.success d) dom).1.docTitle =
          d.personalInfo.name ++ " - " ++ d.personalInfo.title)
    ∧ (dom.nameText.isSome = true →
        (loadResumeData (FetchResult.success d) dom).1.nameText = some d.personalInfo.name)
    ∧ (dom.titleText.isSome = true →
        (loadResumeData (FetchResult.success d) dom).1.titleText = some d.personalInfo.title)
    ∧ (dom.descriptionText.isSome = true →
        (loadResumeData (FetchResult.success d) dom).1.descriptionText =
          some d.personalInfo.summary)
    ∧ (dom.experienceTimeline.isSome = true → d.experience ≠ [] →
        (loadResumeData (FetchResult.success d) dom).1.experienceTimeline =
          some (d.experience.map renderTimelineItem))
    ∧ (dom.projectsGrid.isSome = true → d.projects ≠ [] →
        (loadResumeData (FetchResult.success d) dom).1.projectsGrid =
          some (d.projects.enum.map fun pr => renderProjectCard pr.1 pr.2))
    ∧ (dom.statsGrid.isSome = true → ∀ stats, d.stats = some stats →
        (loadResumeData (FetchResult.success d) dom).1.statsGrid =
          some (renderStatsGrid stats)) := by
  intro d dom
  have hload : (loadResumeData (FetchResult.success d) dom).1 =
      updateStats d.stats (updateAboutSection d (updateProjectsSection d.projects
        (updateExperienceSection d.experience (updatePersonalInfo d.personalInfo dom)))) := rfl
  refine ⟨?_, ?_, ?_, ?_, ?_, ?_, ?_⟩
  · rw [hload, (updateStats_frame _ _).1, (updateAboutSection_frame _ _).1,
      (updateProjectsSection_frame _ _).1, (updateExperienceSection_frame _ _).1]
    rfl
  · intro hc
    rw [hload, (updateStats_frame _ _).2.1, (updateAboutSection_frame _ _).2.1,
      (updateProjectsSection_frame _ _).2.1, (updateExperienceSection_frame _ _).2.1]
    cases hn : dom.nameText with
    | none => rw [hn] at hc; simp at hc
    | some a => simp [updatePersonalInfo, hn]
  · intro hc
    rw [hload, (updateStats_frame _ _).2.2.1, (updateAboutSection_frame _ _).2.2.1,
      (updateProjectsSection_frame _ _).2.2.1, (updateExperienceSection_frame _ _).2.2.1]
    cases hn : dom.titleText with
    | none => rw [hn] at hc; simp at hc
    | some a => simp [updatePersonalInfo, hn]
  · intro hc
    rw [hload, (updateStats_frame _ _).2.2.2.1, (updateAboutSection_frame _ _).2.2.2.1,
      (updateProjectsSection_frame _ _).2.2.2.1, (updateExperienceSection_frame _ _).2.2.2.1]
    cases hn : dom.descriptionText with
    | none => rw [hn] at hc; simp at hc
    | some a => simp [updatePersonalInfo, hn]
  · intro hc hne
    rw [hload, (updateStats_frame _ _).2.2.2.2.1, (updateAboutSection_frame _ _).2.2.2.2.1,
      (updateProjectsSection_frame _ _).2.2.2.2.1]
    exact updateExperienceSection_sets d.experience _ hc hne
  · intro hc hne
    rw [hload, (updateStats_frame _ _).2.2.2.2.2, (updateAboutSection_frame _ _).2.2.2.2.2.1]
    refine updateProjectsSection_sets d.projects _ ?_ hne
    rw [(updateExperienceSection_frame _ _).2.2.2.2.1]
    exact hc
  · intro hc stats hstats
    rw [hload, hstats]
    refine updateStats_sets stats _ ?_
    rw [(updateAboutSection_frame _ _).2.2.2.2.2.2, (updateProjectsSection_frame _ _).2.2.2.2.2,
      (updateExperienceSection_frame _ _).2.2.2.2.2]
    exact hc

/-- Witness for C3 at a concrete input: hydrating the placeholder
document from a fully populated object rebuilds the timeline from the
fetched array. -/
theorem hydration_overwrites_placeholders_witness :
    (loadResumeData (FetchResult.success sampleResumeData) placeholderDom).1.experienceTimeline
      = some (sampleResumeData.experience.map renderTimelineItem) :=
  (hydration_overwrites_placeholders sampleResumeData placeholderDom).2.2.2.2.1
    rfl (by simp [sampleResumeData])

end Portfolio
